import Mathlib

/-!
Verification of the Product-Catalogue front-end (js/main.js, js/product.js).

The JavaScript is shallowly embedded: JSON-sourced field values become the
scalar type `JVal` (the two array-valued fields `images` and `specifications`
are modeled as `Option (List JVal)`, mirroring the code's `Array.isArray`
checks, with `none` standing for any non-array value).  JS numbers are modeled
as `Option ℚ`, `none` standing for the non-finite values (`NaN`, `±Infinity`);
all arithmetic the code performs on well-formed records stays exact in `ℚ`.
String operations (`trim`, `toLowerCase`, `includes`) are re-implemented over
`List Char` so that concrete evaluations reduce in the kernel; they agree with
the JS operations on the ASCII payload data (JS `trim` additionally strips
rare Unicode space characters, and `toLowerCase` additionally maps non-ASCII
letters, neither of which occurs in the claims).
-/

/-- A scalar JavaScript/JSON value, as stored in a product record field.
A field missing from the JSON object reads as `vundefined`. -/
inductive JVal where
  | vnum (n : Int)
  | vstr (s : String)
  | vbool (b : Bool)
  | vnull
  | vundefined
deriving DecidableEq, Repr

/-- A product record from `data/products.json`.  Fields carry raw JSON
values; `images` and `specifications` are `some xs` when the JSON value is an
array and `none` otherwise (the code only ever tests them with
`Array.isArray`). -/
structure Product where
  id : JVal
  name : JVal
  price : JVal
  old_price : JVal
  slots : JVal
  finish : JVal
  description : JVal
  image : JVal
  images : Option (List JVal)
  specifications : Option (List JVal)
  amazon : JVal
deriving DecidableEq, Repr

/-- JS truthiness of a scalar value: numbers are truthy iff nonzero, strings
iff nonempty, `null`/`undefined` are falsy. -/
def jsTruthy : JVal → Bool
  | .vnum n => n != 0
  | .vstr s => s != ""
  | .vbool b => b
  | .vnull => false
  | .vundefined => false

/-- JS `String(v)` for a scalar value (also the behaviour of template-literal
interpolation). -/
def jsToString : JVal → String
  | .vnum n => toString n
  | .vstr s => s
  | .vbool b => cond b "true" "false"
  | .vnull => "null"
  | .vundefined => "undefined"

/-- ASCII lower-casing of one character, as JS `toLowerCase` acts on the
ASCII range. -/
def lowerChar (c : Char) : Char :=
  if 65 ≤ c.toNat ∧ c.toNat ≤ 90 then Char.ofNat (c.toNat + 32) else c

/-- JS `String.prototype.toLowerCase`, restricted to its ASCII action. -/
def jsToLower (s : String) : String := ⟨s.data.map lowerChar⟩

/-- The whitespace class stripped by JS `String.prototype.trim`: tab, LF, VT,
FF, CR, space, NBSP and the BOM (the Unicode space separators are omitted;
they do not occur in the data). -/
def jsWhitespace (c : Char) : Bool :=
  c.toNat = 9 || c.toNat = 10 || c.toNat = 11 || c.toNat = 12 || c.toNat = 13 ||
  c.toNat = 32 || c.toNat = 160 || c.toNat = 65279

/-- JS `String.prototype.trim`. -/
def jsTrim (s : String) : String :=
  ⟨((s.data.dropWhile jsWhitespace).reverse.dropWhile jsWhitespace).reverse⟩

/-- Does the character list starting the second argument begin with the
first argument? -/
def charsStartWith : List Char → List Char → Bool
  | [], _ => true
  | _ :: _, [] => false
  | p :: ps, h :: hs => p == h && charsStartWith ps hs

/-- Substring occurrence over character lists. -/
def charsContains (pat : List Char) : List Char → Bool
  | [] => charsStartWith pat []
  | c :: t => charsStartWith pat (c :: t) || charsContains pat t

/-- JS `String.prototype.includes`: `jsIncludes s q` holds iff `q` occurs as
a contiguous substring of `s` (the empty string occurs in every string). -/
def jsIncludes (s q : String) : Bool := charsContains q.data s.data

/-- Numeric value of a digit list read in base 10. -/
def digitsToNat (cs : List Char) : Nat :=
  cs.foldl (fun acc c => acc * 10 + (c.toNat - 48)) 0

/-- Parse an unsigned decimal literal (`123`, `123.45`, `.5`, `5.`), the
forms JS `Number(string)` accepts for the payload's data.  `none` is NaN. -/
def parseUnsignedDec (cs : List Char) : Option ℚ :=
  let intPart := cs.takeWhile Char.isDigit
  let rest := cs.dropWhile Char.isDigit
  match rest with
  | [] => if intPart.isEmpty then none else some (digitsToNat intPart : ℚ)
  | c :: frac =>
    if c = Char.ofNat 46 then
      if frac.all Char.isDigit && (!intPart.isEmpty || !frac.isEmpty) then
        some ((digitsToNat intPart : ℚ) + (digitsToNat frac : ℚ) / (10 : ℚ) ^ frac.length)
      else none
    else none

/-- JS `Number(string)`: the whitespace-trimmed empty string is `0`, a signed
decimal literal is its value, anything else is NaN (`none`; the exotic
accepted forms — hex, exponent, `Infinity` — are outside the payload's domain
and collapse to `none`). -/
def jsStringToNumber (s : String) : Option ℚ :=
  let t := jsTrim s
  match t.data with
  | [] => some 0
  | c :: cs =>
    if c = Char.ofNat 45 then (parseUnsignedDec cs).map Neg.neg
    else if c = Char.ofNat 43 then parseUnsignedDec cs
    else parseUnsignedDec t.data

/-- JS `Number(v)` numeric coercion of a scalar value; `none` is NaN. -/
def jsToNumber : JVal → Option ℚ
  | .vnum n => some (n : ℚ)
  | .vstr s => jsStringToNumber s
  | .vbool b => some (cond b 1 0)
  | .vnull => some 0
  | .vundefined => none

/-- Subtraction of JS numbers; NaN propagates. -/
def jsSub : Option ℚ → Option ℚ → Option ℚ
  | some a, some b => some (a - b)
  | _, _ => none

/-- Division of JS numbers; NaN propagates, and a zero divisor (which in JS
yields a non-finite value) also goes to `none`. -/
def jsDiv : Option ℚ → Option ℚ → Option ℚ
  | some a, some b => if b = 0 then none else some (a / b)
  | _, _ => none

/-- Multiplication of JS numbers; NaN propagates. -/
def jsMul : Option ℚ → Option ℚ → Option ℚ
  | some a, some b => some (a * b)
  | _, _ => none

/-- JS `Math.round`: round half toward positive infinity. -/
def jsRound (q : ℚ) : Int := ⌊q + 1 / 2⌋

/-- Is a JS comparator result strictly positive?  (`none`, i.e. NaN, compares
false, as in the engines' sort implementations.) -/
def jsCmpGtZero : Option ℚ → Bool
  | some q => decide (0 < q)
  | none => false

/-! ### Catalog: filtering (js/main.js `applyFilters`, lines 208–222) -/

/-- `String(v || "")`: the string form of a field with the code's falsy
fallback — a falsy field value (`0`, `""`, `null`, `undefined`) contributes
the empty string. -/
def fieldOrEmpty (v : JVal) : String :=
  if jsTruthy v then jsToString v else ""

/-- The record predicate of the filter in `applyFilters`: the (already
trimmed and lowercased) query is empty, or occurs in the lowercased
`String(p.name || "")`, `String(p.finish || "")` or `String(p.slots || "")`. -/
def matchesQuery (q : String) (p : Product) : Bool :=
  if q = "" then true
  else
    jsIncludes (jsToLower (fieldOrEmpty p.name)) q ||
    jsIncludes (jsToLower (fieldOrEmpty p.finish)) q ||
    jsIncludes (jsToLower (fieldOrEmpty p.slots)) q

/-- The filtering stage of `applyFilters`: `products.filter(...)` with the
query taken from the search input, trimmed and lowercased. -/
def filterStage (products : List Product) (searchValue : String) : List Product :=
  products.filter (matchesQuery (jsToLower (jsTrim searchValue)))

/-! ### Catalog: sorting (js/main.js `applyFilters`, lines 224–233)

JS `Array.prototype.sort` with a comparator is a stable sort; it is modeled
by `List.insertionSort` ordered by "the comparator is not strictly positive",
which is exactly the stable order the ECMAScript specification prescribes for
a consistent comparator.  (For records whose sort field does not coerce to a
number the comparator returns NaN and ECMAScript leaves the order
implementation-defined; the model then treats such pairs as ties.) -/

/-- Comparator `(a, b) => Number(a.price) - Number(b.price)`. -/
def cmpPriceAsc (a b : Product) : Option ℚ := jsSub (jsToNumber a.price) (jsToNumber b.price)

/-- Comparator `(a, b) => Number(b.price) - Number(a.price)`. -/
def cmpPriceDesc (a b : Product) : Option ℚ := jsSub (jsToNumber b.price) (jsToNumber a.price)

/-- Comparator `(a, b) => Number(a.slots) - Number(b.slots)`. -/
def cmpSlotsAsc (a b : Product) : Option ℚ := jsSub (jsToNumber a.slots) (jsToNumber b.slots)

/-- Comparator `(a, b) => Number(b.slots) - Number(a.slots)`. -/
def cmpSlotsDesc (a b : Product) : Option ℚ := jsSub (jsToNumber b.slots) (jsToNumber a.slots)

/-- The order a stable JS sort realises for a comparator `c`: `a` may stay
before `b` iff `c a b` is not strictly positive. -/
def sortLe (c : Product → Product → Option ℚ) (a b : Product) : Prop :=
  jsCmpGtZero (c a b) = false

instance (c : Product → Product → Option ℚ) : DecidableRel (sortLe c) :=
  fun _ _ => inferInstanceAs (Decidable (_ = false))

/-- The sorting stage of `applyFilters`: the `sortVal` if/else chain; any
unrecognised key (including `relevance`) leaves the order unchanged. -/
def sortStage (sortValue : String) (l : List Product) : List Product :=
  if sortValue = "price-asc" then l.insertionSort (sortLe cmpPriceAsc)
  else if sortValue = "price-desc" then l.insertionSort (sortLe cmpPriceDesc)
  else if sortValue = "slots-asc" then l.insertionSort (sortLe cmpSlotsAsc)
  else if sortValue = "slots-desc" then l.insertionSort (sortLe cmpSlotsDesc)
  else l

/-- `applyFilters` (js/main.js lines 208–236), as a pure function from the
product set and the two control values to the list handed to `renderList`. -/
def applyFilters (products : List Product) (searchValue sortValue : String) : List Product :=
  sortStage sortValue (filterStage products searchValue)

/-! ### The list page's mutable state (js/main.js, C9) -/

/-- The module-level mutable state of the list page that `applyFilters`
touches: the in-memory `products` array, the two control values it reads and
the `lastRendered` copy that `renderList` stores.  `products.filter` allocates
a fresh array and the subsequent in-place `sort` is applied to that fresh
array only, so recomputation writes `lastRendered` and nothing else. -/
structure PageState where
  products : List Product
  searchValue : String
  sortValue : String
  lastRendered : List Product
deriving DecidableEq, Repr

/-- One recomputation of the derived view: `applyFilters()` followed by
`renderList(filtered)`. -/
def applyFiltersPage (s : PageState) : PageState :=
  { s with lastRendered := applyFilters s.products s.searchValue s.sortValue }

/-! ### Detail lookup (js/product.js `loadAndRender`, lines 209–232) -/

/-- `list.find((x) => String(x.id) === String(id))`.  The requested `id`
comes from the URL and is already a string, so `String(id) = id`; a record's
`id` is coerced with `String(-)`. -/
def findProduct (records : List Product) (id : String) : Option Product :=
  records.find? (fun x => jsToString x.id = id)

/-- The two terminal render states of the detail page's happy path. -/
inductive DetailResult where
  | notFound
  | found (p : Product)
deriving DecidableEq, Repr

/-- The outcome `loadAndRender` computes from the `id` query parameter
(`none` when the parameter is absent) and a successfully fetched record list:
`if (!id) renderNotFound()` — note an empty-string parameter is also falsy —
then `renderProduct(list.find(...))`, where `renderProduct` of `undefined`
renders the not-found view. -/
def detailOutcome (idParam : Option String) (records : List Product) : DetailResult :=
  match idParam with
  | none => .notFound
  | some id =>
    if id = "" then .notFound
    else
      match findProduct records id with
      | none => .notFound
      | some p => .found p

/-! ### HTML escaping (js/product.js `escapeHtml`, lines 199–207) -/

/-- One character's image under the chain of global replacements
`& → &amp;`, `< → &lt;`, `> → &gt;`, `" → &quot;`, `ʼ → &#39;`.  Because the
ampersand pass runs first and no later pass re-inspects inserted text, the
chained replacements act exactly character-by-character. -/
def escapeChar (c : Char) : String :=
  if c = '&' then "&amp;"
  else if c = '<' then "&lt;"
  else if c = '>' then "&gt;"
  else if c = '"' then "&quot;"
  else if c.toNat = 39 then "&#39;"
  else String.singleton c

/-- The replacement chain of `escapeHtml` applied to a string. -/
def escapeStr (s : String) : String := String.join (s.data.map escapeChar)

/-- `escapeHtml`: `null` and `undefined` become the empty string, any other
value is coerced with `String(-)` and escaped. -/
def escapeHtml : JVal → String
  | .vnull => ""
  | .vundefined => ""
  | v => escapeStr (jsToString v)

/-! ### Discount computation (js/main.js lines 125–141, js/product.js
lines 140–156) -/

/-- `Math.round(((old_price - price) / old_price) * 100)`, on the raw field
values; `none` is a non-finite result (rendered as it would print). -/
def discountPercent (old price : JVal) : Option Int :=
  (jsMul (jsDiv (jsSub (jsToNumber old) (jsToNumber price)) (jsToNumber old))
      (some 100)).map jsRound

/-- The text interpolated for the discount (`${discountPercent}`): the
decimal form of the rounded number, or `NaN` for a non-finite result. -/
def discountText (old price : JVal) : String :=
  match discountPercent old price with
  | some n => toString n
  | none => "NaN"

/-! ### Card renderer price block (js/main.js `createCard`, lines 125–142) -/

/-- One child span of the card's price `div`, identified by its class. -/
inductive PriceSpan where
  | oldPrice (text : String)
  | currentPrice (text : String)
  | discount (text : String)
deriving DecidableEq, Repr

/-- The `priceContent` array built by `createCard`: the old-price span is
pushed iff `p.old_price` is truthy, the current price always, and the
discount span again iff `p.old_price` is truthy.  `fmt` stands for
`formatINR`, whose output is produced by the host's `Intl` machinery. -/
def cardPriceContent (fmt : JVal → String) (p : Product) : List PriceSpan :=
  (if jsTruthy p.old_price then [PriceSpan.oldPrice (fmt p.old_price)] else [])
    ++ [PriceSpan.currentPrice (fmt p.price)]
    ++ (if jsTruthy p.old_price then
          [PriceSpan.discount (discountText p.old_price p.price ++ "% off")]
        else [])

/-- The `specs` div of a card (js/main.js line 145): raw template
interpolation into `innerHTML`, with no escaping. -/
def createCardSpecsHtml (p : Product) : String :=
  "<div class=\"small\">Slots: " ++ jsToString p.slots ++ " • Finish: "
    ++ jsToString p.finish ++ "</div><div class=\"small\">" ++ jsToString p.description
    ++ "</div>"

/-! ### Detail renderer (js/product.js `renderProduct`, lines 87–177)

The generated `innerHTML` string is reproduced segment by segment.
`formatINR` (host-locale currency formatting) and the two contact-link
builders (which depend on `window.location` and percent-encoding) enter as
parameters. -/

/-- `p.image || "images/placeholder.png"`. -/
def defaultImage (p : Product) : JVal :=
  if jsTruthy p.image then p.image else .vstr "images/placeholder.png"

/-- The gallery image list: `p.images` when it is a non-empty array,
otherwise the one-element fallback. -/
def imagesOf (p : Product) : List JVal :=
  match p.images with
  | some xs => if xs.length > 0 then xs else [defaultImage p]
  | none => [defaultImage p]

/-- `images[0]` (by construction `imagesOf` is never empty). -/
def mainImgSrc (p : Product) : JVal := (imagesOf p).headD .vundefined

/-- The main `<img>` tag: note `src="${mainImgSrc}"` interpolates the raw
field value while `alt` uses `escapeHtml`. -/
def mainImgHtml (p : Product) : String :=
  "<img id=\"main-img\" src=\"" ++ jsToString (mainImgSrc p) ++ "\" alt=\""
    ++ escapeHtml p.name
    ++ "\" loading=\"lazy\" onerror=\"this.src=\x27images/placeholder.png\x27\">"

/-- One thumbnail `<img>` tag (again the `src` value is interpolated raw). -/
def thumbHtml (name : JVal) (index : Nat) (imgSrc : JVal) : String :=
  "<img class=\"thumbnail " ++ (if index = 0 then "active" else "") ++ "\" src=\""
    ++ jsToString imgSrc ++ "\" alt=\"" ++ escapeHtml name ++ " - View "
    ++ toString (index + 1) ++ "\" data-index=\"" ++ toString index
    ++ "\" loading=\"lazy\" onerror=\"this.src=\x27images/placeholder.png\x27\">"

/-- `images.map((imgSrc, index) => ...).join("")`. -/
def thumbnailsHtml (p : Product) : String :=
  String.join ((imagesOf p).mapIdx (fun i v => thumbHtml p.name i v))

/-- The `image-gallery` block of the template. -/
def imageGalleryHtml (p : Product) : String :=
  "\n    <div class=\"image-gallery\">\n      <div class=\"main-image\">\n        "
    ++ mainImgHtml p
    ++ "\n      </div>\n      <div class=\"thumbnails\">\n        "
    ++ thumbnailsHtml p
    ++ "\n      </div>\n    </div>\n  "

/-- `specsHtml`: the `<li>` list when `specifications` is an array, else
the empty string. -/
def specsHtml (p : Product) : String :=
  match p.specifications with
  | some xs => String.join (xs.map (fun s => "<li>" ++ escapeHtml s ++ "</li>"))
  | none => ""

/-- `amazonHtml`: the external purchase link when `p.amazon` is truthy. -/
def amazonHtml (p : Product) : String :=
  if jsTruthy p.amazon then
    "<a class=\"amazon-link\" target=\"_blank\" rel=\"noopener\" href=\""
      ++ escapeHtml p.amazon ++ "\">Buy on Amazon</a>"
  else ""

/-- The old-price ternary of the detail price block. -/
def detailOldPriceHtml (fmt : JVal → String) (p : Product) : String :=
  if jsTruthy p.old_price then
    "<span class=\"old-price\"><s>" ++ fmt p.old_price ++ "</s></span>"
  else ""

/-- The discount ternary of the detail price block. -/
def detailDiscountHtml (p : Product) : String :=
  if jsTruthy p.old_price then
    "<span class=\"discount\">" ++ discountText p.old_price p.price ++ "% off</span>"
  else ""

/-- The full `detailEl.innerHTML` template of `renderProduct` (whitespace of
the template literal approximated; every interpolation is reproduced
exactly).  `fmt` stands for `formatINR`; `waLink`/`mailLink` for the two
contact-link builders. -/
def renderProductHtml (fmt : JVal → String) (waLink mailLink : String) (p : Product) : String :=
  "\n    <div class=\"top\">\n      " ++ imageGalleryHtml p
    ++ "\n      <div class=\"product-meta\">\n        <h2>" ++ escapeHtml p.name
    ++ "</h2>\n        <div class=\"price\">\n          " ++ detailOldPriceHtml fmt p
    ++ "\n          <span class=\"current-price\">" ++ fmt p.price
    ++ "</span>\n          " ++ detailDiscountHtml p
    ++ "\n        </div>\n        <div class=\"specs small\">Slots: "
    ++ escapeStr (jsToString p.slots)
    ++ " • Finish: " ++ escapeHtml p.finish
    ++ "</div>\n        <p>" ++ escapeHtml p.description
    ++ "</p>\n        <ul class=\"spec-list\">\n          " ++ specsHtml p
    ++ "\n        </ul>\n        " ++ amazonHtml p
    ++ "\n        <div style=\"margin-top:1rem;display:flex;gap:0.5rem;flex-wrap:wrap\">"
    ++ "\n          <a class=\"btn btn-contact\" target=\"_blank\" rel=\"noopener\" href=\""
    ++ waLink ++ "\">WhatsApp</a>\n          <a class=\"btn\" href=\"" ++ mailLink
    ++ "\">Email</a>\n        </div>\n      </div>\n    </div>\n  "

/-! ### Fetch with retry (js/main.js `fetchProductsWithRetry`, lines 240–274)

One attempt's interaction with the network is abstracted as a `FetchSim`
value; the loop around it is modeled exactly.  JS timers and the awaited
delay appear as recorded trace data (`timeouts`, `delays`). -/

/-- The parsed response body: a JSON array of records, or anything else. -/
inductive Body where
  | arr (records : List Product)
  | nonArray
deriving DecidableEq, Repr

/-- What one fetch attempt observes: a timeout (`safeFetch` rejects after
`FETCH_TIMEOUT`), a network error, or a response with its status and body. -/
inductive FetchSim where
  | timeout
  | netError
  | response (ok : Bool) (status : Nat) (body : Body)
deriving DecidableEq, Repr

/-- The body of the `try` block for one attempt: non-ok status and non-array
body are thrown as errors, an array body succeeds. -/
def attemptResult : FetchSim → Except String (List Product)
  | .timeout => .error "Request timed out"
  | .netError => .error "fetch failed"
  | .response ok status body =>
    if ok then
      match body with
      | .arr records => .ok records
      | .nonArray => .error "Invalid data format: expected array"
    else .error ("Network response was not ok: " ++ toString status)

/-- `FETCH_TIMEOUT` (ms), passed to `safeFetch` on every attempt. -/
def FETCH_TIMEOUT : Nat := 8000

/-- `MAX_RETRIES`. -/
def MAX_RETRIES : Nat := 1

/-- The observable state the loader drives: the message element, the
in-memory `products` array, what was rendered, whether the container shows
the failure markup, plus the trace of per-attempt timeouts and inter-attempt
delays. -/
structure LoadState where
  msg : String
  msgHidden : Bool
  products : List Product
  rendered : Option (List Product)
  containerFailed : Bool
  timeouts : List Nat
  delays : List Nat
  attemptsMade : Nat
deriving DecidableEq, Repr

/-- The state after `msgEl.textContent = "Loading products..."` and before
the first attempt. -/
def initLoadState : LoadState :=
  { msg := "Loading products...", msgHidden := false, products := [], rendered := none,
    containerFailed := false, timeouts := [], delays := [], attemptsMade := 0 }

/-- The failure message shown when the final attempt fails. -/
def loadFailMsg : String := "Sorry — could not load products at this time."

/-- The `for (attempt = 0; attempt <= retries; attempt++)` loop, processing
the list of remaining attempts: success stores the records, clears the
message and renders (and returns, skipping the remaining attempts); a failure
on the last attempt renders the failure state; an earlier failure waits
500 ms and continues. -/
def fetchGo : List FetchSim → LoadState → LoadState
  | [], st => st
  | f :: rest, st =>
    let st' := { st with attemptsMade := st.attemptsMade + 1,
                         timeouts := st.timeouts ++ [FETCH_TIMEOUT] }
    match attemptResult f with
    | .ok records =>
      { st' with products := records, msg := "", msgHidden := true,
                 rendered := some records }
    | .error _ =>
      if rest = [] then
        { st' with msg := loadFailMsg, msgHidden := false, containerFailed := true }
      else
        fetchGo rest { st' with delays := st'.delays ++ [500] }

/-- `fetchProductsWithRetry(retries)`: run the loop over the outcomes of
attempts `0 .. retries`. -/
def fetchProductsWithRetry (sim : Nat → FetchSim) (retries : Nat) : LoadState :=
  fetchGo ((List.range (retries + 1)).map sim) initLoadState

/-! ### Theme toggle (js/main.js lines 278–295) -/

/-- The state the theme code touches: the `data-theme` attribute of the
document element, the persisted `localStorage` entry under key `theme`, and
the toggle button's label. -/
structure ThemeState where
  dataTheme : Option String
  stored : Option String
  toggleText : String
deriving DecidableEq, Repr

/-- `setTheme(theme)`: sets the attribute, writes the storage entry, and
relabels the button. -/
def setTheme (theme : String) (_s : ThemeState) : ThemeState :=
  { dataTheme := some theme, stored := some theme,
    toggleText := if theme = "dark" then "☀️" else "🌙" }

/-- `toggleTheme()`: an absent attribute reads as `light`; `dark` flips to
`light` and anything else to `dark`. -/
def toggleTheme (s : ThemeState) : ThemeState :=
  let current := s.dataTheme.getD "light"
  let newTheme := if current = "dark" then "light" else "dark"
  setTheme newTheme s

/-- `initTheme()` (without the listener wiring): an absent storage entry
reads as `light`. -/
def initTheme (s : ThemeState) : ThemeState :=
  setTheme (s.stored.getD "light") s

/-- A freshly loaded page with no stored preference and no attribute set. -/
def freshThemeState : ThemeState :=
  { dataTheme := none, stored := none, toggleText := "" }

/-! ### Stable-sort lemmas

`List.insertionSort` is the stable sort; Mathlib's sortedness lemma requires
the order to be total and transitive on the whole type, which the JS
comparators are not when NaN keys are present, so restricted versions are
proved for lists all of whose elements lie in a set on which the order is
total and transitive. -/

theorem orderedInsert_sorted_restricted {α : Type} (r : α → α → Prop) [DecidableRel r]
    (P : α → Prop)
    (htot : ∀ a b, P a → P b → r a b ∨ r b a)
    (htrans : ∀ a b c, P a → P b → P c → r a b → r b c → r a c)
    (a : α) (ha : P a) (l : List α) (hl : ∀ x ∈ l, P x) (hs : l.Sorted r) :
    (l.orderedInsert r a).Sorted r := by
  induction l with
  | nil => simp [List.orderedInsert]
  | cons b t ih =>
    rw [List.orderedInsert]
    by_cases hab : r a b
    · rw [if_pos hab]
      refine List.sorted_cons.2 ⟨?_, hs⟩
      intro x hx
      rcases List.mem_cons.1 hx with rfl | hxl
      · exact hab
      · exact htrans a b x ha (hl b (List.mem_cons_self b t)) (hl x (List.mem_cons_of_mem b hxl))
          hab (List.rel_of_sorted_cons hs x hxl)
    · rw [if_neg hab]
      have hba : r b a := (htot a b ha (hl b (List.mem_cons_self b t))).resolve_left hab
      refine List.sorted_cons.2 ⟨?_, ih (fun x hx => hl x (List.mem_cons_of_mem b hx)) hs.of_cons⟩
      intro x hx
      rcases (List.mem_orderedInsert r).1 hx with rfl | hxl
      · exact hba
      · exact List.rel_of_sorted_cons hs x hxl

theorem insertionSort_sorted_restricted {α : Type} (r : α → α → Prop) [DecidableRel r]
    (P : α → Prop)
    (htot : ∀ a b, P a → P b → r a b ∨ r b a)
    (htrans : ∀ a b c, P a → P b → P c → r a b → r b c → r a c)
    (l : List α) (hl : ∀ x ∈ l, P x) :
    (l.insertionSort r).Sorted r := by
  induction l with
  | nil => simp [List.insertionSort]
  | cons a t ih =>
    rw [List.insertionSort]
    exact orderedInsert_sorted_restricted r P htot htrans a (hl a (List.mem_cons_self a t))
      (t.insertionSort r)
      (fun x hx => hl x (List.mem_cons_of_mem a ((List.mem_insertionSort r).1 hx)))
      (ih (fun x hx => hl x (List.mem_cons_of_mem a hx)))

theorem filter_orderedInsert_ties {α : Type} (r : α → α → Prop) [DecidableRel r]
    (p : α → Bool) (a : α) (hpr : ∀ x, p a = true → p x = true → r a x) (l : List α) :
    (l.orderedInsert r a).filter p = if p a then a :: l.filter p else l.filter p := by
  induction l with
  | nil =>
    rw [List.orderedInsert]
    cases hpa : p a <;> simp [List.filter_cons, hpa]
  | cons b t ih =>
    rw [List.orderedInsert]
    by_cases hab : r a b
    · rw [if_pos hab]
      cases hpa : p a <;> simp [List.filter_cons, hpa]
    · rw [if_neg hab]
      cases hpa : p a with
      | false =>
        cases hpb : p b <;> simp [List.filter_cons, hpa, hpb, ih]
      | true =>
        have hpb : p b = false := by
          cases hpb : p b
          · rfl
          · exact absurd (hpr b hpa hpb) hab
        simp [List.filter_cons, hpa, hpb, ih]

theorem filter_insertionSort_ties {α : Type} (r : α → α → Prop) [DecidableRel r]
    (p : α → Bool) (hpr : ∀ x y, p x = true → p y = true → r x y) (l : List α) :
    (l.insertionSort r).filter p = l.filter p := by
  induction l with
  | nil => simp [List.insertionSort]
  | cons a t ih =>
    rw [List.insertionSort, filter_orderedInsert_ties r p a (fun x => hpr a x)]
    cases hpa : p a <;> simp [List.filter_cons, hpa, ih]

/-! ### The JS comparators as orders on numeric keys -/

theorem jsSub_neg_swap (x y : Option ℚ) :
    jsSub (Option.map Neg.neg x) (Option.map Neg.neg y) = jsSub y x := by
  cases x <;> cases y <;> (simp [jsSub]; try ring)

theorem sortLe_iff_le {c : Product → Product → Option ℚ} {k : Product → Option ℚ}
    (hck : ∀ a b, c a b = jsSub (k a) (k b)) {a b : Product} {x y : ℚ}
    (hx : k a = some x) (hy : k b = some y) :
    sortLe c a b ↔ x ≤ y := by
  unfold sortLe
  rw [hck, hx, hy]
  simp [jsSub, jsCmpGtZero, decide_eq_false_iff_not, not_lt, sub_nonpos]

/-- All four stable-sort facts for a JS comparator that computes the
difference of a numeric key, on a list whose keys are all numbers. -/
theorem jsSort_spec (c : Product → Product → Option ℚ) (k : Product → Option ℚ)
    (hck : ∀ a b, c a b = jsSub (k a) (k b))
    (l : List Product) (hnum : ∀ x ∈ l, (k x).isSome = true) :
    (l.insertionSort (sortLe c)).Perm l
  ∧ (l.insertionSort (sortLe c)).Sorted (sortLe c)
  ∧ (l.insertionSort (sortLe c)).insertionSort (sortLe c) = l.insertionSort (sortLe c) := by
  have hP : ∀ x ∈ l, ∃ q : ℚ, k x = some q := by
    intro x hx
    exact Option.isSome_iff_exists.1 (hnum x hx)
  have htot : ∀ a b : Product, (∃ q : ℚ, k a = some q) → (∃ q : ℚ, k b = some q) →
      sortLe c a b ∨ sortLe c b a := by
    rintro a b ⟨qa, ha⟩ ⟨qb, hb⟩
    rcases le_total qa qb with h | h
    · exact Or.inl ((sortLe_iff_le hck ha hb).2 h)
    · exact Or.inr ((sortLe_iff_le hck hb ha).2 h)
  have htrans : ∀ a b d : Product, (∃ q : ℚ, k a = some q) → (∃ q : ℚ, k b = some q) →
      (∃ q : ℚ, k d = some q) → sortLe c a b → sortLe c b d → sortLe c a d := by
    rintro a b d ⟨qa, ha⟩ ⟨qb, hb⟩ ⟨qd, hd⟩ h1 h2
    exact (sortLe_iff_le hck ha hd).2
      (le_trans ((sortLe_iff_le hck ha hb).1 h1) ((sortLe_iff_le hck hb hd).1 h2))
  have hsorted := insertionSort_sorted_restricted (sortLe c) (fun x => ∃ q : ℚ, k x = some q)
    htot htrans l hP
  exact ⟨List.perm_insertionSort _ _, hsorted, hsorted.insertionSort_eq⟩

/-- Ties of the unsigned key keep their relative order: filtering the sorted
list to one tie class gives the same list as filtering the input. -/
theorem jsSort_filter_ties (c : Product → Product → Option ℚ) (k0 : Product → Option ℚ)
    (htie : ∀ x y q, k0 x = some q → k0 y = some q → sortLe c x y)
    (l : List Product) (q : ℚ) :
    (l.insertionSort (sortLe c)).filter (fun x => decide (k0 x = some q))
      = l.filter (fun x => decide (k0 x = some q)) := by
  refine filter_insertionSort_ties (sortLe c) _ ?_ l
  intro x y hx hy
  exact htie x y q (of_decide_eq_true hx) (of_decide_eq_true hy)

/-- Upgrade sortedness in the comparator order to any relation implied by
the numeric-key inequality, for lists with all-numeric keys. -/
theorem jsSort_pairwise (c : Product → Product → Option ℚ) (k : Product → Option ℚ)
    (hck : ∀ a b, c a b = jsSub (k a) (k b))
    (l : List Product) (hnum : ∀ x ∈ l, (k x).isSome = true)
    (S : Product → Product → Prop)
    (hS : ∀ a b (x y : ℚ), k a = some x → k b = some y → x ≤ y → S a b) :
    (l.insertionSort (sortLe c)).Pairwise S := by
  have hsorted := (jsSort_spec c k hck l hnum).2.1
  refine List.Pairwise.imp_of_mem ?_ hsorted
  intro a b ha hb hab
  have ha' := hnum a ((List.mem_insertionSort _).1 ha)
  have hb' := hnum b ((List.mem_insertionSort _).1 hb)
  rcases Option.isSome_iff_exists.1 ha' with ⟨qa, hqa⟩
  rcases Option.isSome_iff_exists.1 hb' with ⟨qb, hqb⟩
  exact hS a b qa qb hqa hqb ((sortLe_iff_le hck hqa hqb).1 hab)

theorem map_neg_eq_some {o : Option ℚ} {x : ℚ} (h : Option.map Neg.neg o = some x) :
    o = some (-x) := by
  cases o with
  | none => exact absurd h (by simp)
  | some v =>
    have hv : -v = x := by simpa using h
    rw [← hv, neg_neg]

/-- Pointwise order between two JS numbers, as the claims state it: both are
actual numbers and they compare. -/
def numLE (x y : Option ℚ) : Prop := ∃ a b : ℚ, x = some a ∧ y = some b ∧ a ≤ b

/-- The four directional sort keys of the sort selector. -/
def directionalKeys : List String := ["price-asc", "price-desc", "slots-asc", "slots-desc"]

/-- The field a directional key sorts on, numerically coerced. -/
def sortField (sortValue : String) (p : Product) : Option ℚ :=
  if sortValue = "price-asc" ∨ sortValue = "price-desc" then jsToNumber p.price
  else jsToNumber p.slots

/-- The order a directional key is supposed to realise on adjacent output
records. -/
def sortOrder (sortValue : String) (a b : Product) : Prop :=
  if sortValue = "price-desc" ∨ sortValue = "slots-desc" then
    numLE (sortField sortValue b) (sortField sortValue a)
  else numLE (sortField sortValue a) (sortField sortValue b)

/-- All stable-sort facts for a difference comparator on the numeric coercion
of a field `g`, in either direction (`desc`). -/
theorem jsSortDir_all (c : Product → Product → Option ℚ) (g : Product → JVal) (desc : Bool)
    (hc : ∀ a b, c a b = cond desc (jsSub (jsToNumber (g b)) (jsToNumber (g a)))
                                   (jsSub (jsToNumber (g a)) (jsToNumber (g b))))
    (l : List Product) (hnum : ∀ x ∈ l, (jsToNumber (g x)).isSome = true) :
    (l.insertionSort (sortLe c)).Perm l
  ∧ (l.insertionSort (sortLe c)).Pairwise (fun a b =>
        cond desc (numLE (jsToNumber (g b)) (jsToNumber (g a)))
                  (numLE (jsToNumber (g a)) (jsToNumber (g b))))
  ∧ (∀ q : ℚ, (l.insertionSort (sortLe c)).filter (fun x => decide (jsToNumber (g x) = some q))
        = l.filter (fun x => decide (jsToNumber (g x) = some q)))
  ∧ (l.insertionSort (sortLe c)).insertionSort (sortLe c) = l.insertionSort (sortLe c) := by
  cases desc with
  | false =>
    have hck : ∀ a b, c a b = jsSub (jsToNumber (g a)) (jsToNumber (g b)) := hc
    have spec := jsSort_spec c (fun p => jsToNumber (g p)) hck l hnum
    refine ⟨spec.1, ?_, ?_, spec.2.2⟩
    · exact jsSort_pairwise c _ hck l hnum _
        (fun a b x y hx hy hxy => ⟨x, y, hx, hy, hxy⟩)
    · intro q
      refine jsSort_filter_ties c (fun p => jsToNumber (g p)) ?_ l q
      intro x y q' hx hy
      exact (sortLe_iff_le hck hx hy).2 le_rfl
  | true =>
    have hck : ∀ a b, c a b = jsSub (Option.map Neg.neg (jsToNumber (g a)))
        (Option.map Neg.neg (jsToNumber (g b))) := by
      intro a b
      rw [jsSub_neg_swap]
      exact hc a b
    have hnum' : ∀ x ∈ l, (Option.map Neg.neg (jsToNumber (g x))).isSome = true := by
      intro x hx
      rcases Option.isSome_iff_exists.1 (hnum x hx) with ⟨q, hq⟩
      simp [hq]
    have spec := jsSort_spec c (fun p => Option.map Neg.neg (jsToNumber (g p))) hck l hnum'
    refine ⟨spec.1, ?_, ?_, spec.2.2⟩
    · refine jsSort_pairwise c _ hck l hnum' _ ?_
      intro a b x y hx hy hxy
      exact ⟨-y, -x, map_neg_eq_some hy, map_neg_eq_some hx, neg_le_neg hxy⟩
    · intro q
      refine jsSort_filter_ties c (fun p => jsToNumber (g p)) ?_ l q
      intro x y q' hx hy
      have hx' : jsToNumber (g x) = some q' := hx
      have hy' : jsToNumber (g y) = some q' := hy
      have hkx : Option.map Neg.neg (jsToNumber (g x)) = some (-q') := by rw [hx']; rfl
      have hky : Option.map Neg.neg (jsToNumber (g y)) = some (-q') := by rw [hy']; rfl
      exact (sortLe_iff_le hck hkx hky).2 le_rfl

/-! ### Concrete demonstration records (used by the witnesses) -/

/-- A small record with numeric price and slots. -/
def demoA : Product :=
  { id := .vnum 1, name := .vstr "Alpha Rack", price := .vnum 300, old_price := .vundefined,
    slots := .vnum 6, finish := .vstr "Matte Black", description := .vstr "six slots",
    image := .vundefined, images := none, specifications := none, amazon := .vundefined }

/-- Same price as `demoC` (a tie for the stable-sort witness). -/
def demoB : Product :=
  { id := .vnum 2, name := .vstr "Bravo Stand", price := .vnum 100, old_price := .vundefined,
    slots := .vnum 4, finish := .vstr "Glossy Blue", description := .vstr "four slots",
    image := .vundefined, images := none, specifications := none, amazon := .vundefined }

/-- Same price as `demoB`. -/
def demoC : Product :=
  { id := .vstr "3", name := .vstr "Charlie Shelf", price := .vnum 100, old_price := .vundefined,
    slots := .vnum 2, finish := .vstr "Walnut", description := .vstr "two slots",
    image := .vundefined, images := none, specifications := none, amazon := .vundefined }

/-- The demonstration record set. -/
def demoProducts : List Product := [demoA, demoB, demoC]

/-- C5: a `sortKey` outside the enumerated set leaves `applyFilters` at the
filtered list in its original order, which is exactly what the `relevance`
key produces; the filtered list is an order-preserving subsequence of the
input, so no pair of surviving records is ever reordered.  (The if/else
chain has no failure branch, so no input raises an error.) -/
theorem c5_unknown_sortkey (products : List Product) (searchValue sortValue : String)
    (h1 : sortValue ≠ "price-asc") (h2 : sortValue ≠ "price-desc")
    (h3 : sortValue ≠ "slots-asc") (h4 : sortValue ≠ "slots-desc") :
    applyFilters products searchValue sortValue = filterStage products searchValue
  ∧ applyFilters products searchValue "relevance" = filterStage products searchValue
  ∧ (filterStage products searchValue).Sublist products := by
  refine ⟨?_, ?_, List.filter_sublist _⟩
  · unfold applyFilters sortStage
    rw [if_neg h1, if_neg h2, if_neg h3, if_neg h4]
  · rfl

theorem c5_unknown_sortkey_witness :
    ("banana" ≠ "price-asc" ∧ "banana" ≠ "price-desc" ∧ "banana" ≠ "slots-asc"
      ∧ "banana" ≠ "slots-desc")
  ∧ (applyFilters demoProducts "rack" "banana" = filterStage demoProducts "rack"
      ∧ applyFilters demoProducts "rack" "relevance" = filterStage demoProducts "rack"
      ∧ (filterStage demoProducts "rack").Sublist demoProducts) :=
  ⟨by decide, c5_unknown_sortkey demoProducts "rack" "banana" (by decide) (by decide)
    (by decide) (by decide)⟩

/-- C6: for each of the four directional sort keys, on a record sequence
whose sort field coerces to a number throughout, the sort stage permutes the
filtered input, orders it by the numeric coercion of `price`/`slots` in the
key's direction, keeps every tie class in its original relative order (the
stable sort), and is idempotent: re-sorting the already-sorted output with
the same key returns it unchanged. -/
theorem c6_directional_sort_stable (l : List Product) (sortValue : String)
    (hs : sortValue ∈ directionalKeys)
    (hnum : ∀ p ∈ l, (sortField sortValue p).isSome = true) :
    (sortStage sortValue l).Perm l
  ∧ (sortStage sortValue l).Pairwise (sortOrder sortValue)
  ∧ (∀ q : ℚ, (sortStage sortValue l).filter (fun p => decide (sortField sortValue p = some q))
      = l.filter (fun p => decide (sortField sortValue p = some q)))
  ∧ sortStage sortValue (sortStage sortValue l) = sortStage sortValue l := by
  have hs' : sortValue = "price-asc" ∨ sortValue = "price-desc" ∨
      sortValue = "slots-asc" ∨ sortValue = "slots-desc" := by
    simpa [directionalKeys] using hs
  rcases hs' with rfl | rfl | rfl | rfl
  · exact jsSortDir_all cmpPriceAsc (fun p => p.price) false (fun a b => rfl) l hnum
  · exact jsSortDir_all cmpPriceDesc (fun p => p.price) true (fun a b => rfl) l hnum
  · exact jsSortDir_all cmpSlotsAsc (fun p => p.slots) false (fun a b => rfl) l hnum
  · exact jsSortDir_all cmpSlotsDesc (fun p => p.slots) true (fun a b => rfl) l hnum

theorem c6_directional_sort_stable_witness :
    ("price-asc" ∈ directionalKeys
      ∧ ∀ p ∈ demoProducts, (sortField "price-asc" p).isSome = true)
  ∧ ((sortStage "price-asc" demoProducts).Perm demoProducts
      ∧ (sortStage "price-asc" demoProducts).Pairwise (sortOrder "price-asc")
      ∧ (∀ q : ℚ, (sortStage "price-asc" demoProducts).filter
            (fun p => decide (sortField "price-asc" p = some q))
          = demoProducts.filter (fun p => decide (sortField "price-asc" p = some q)))
      ∧ sortStage "price-asc" (sortStage "price-asc" demoProducts)
          = sortStage "price-asc" demoProducts) :=
  ⟨⟨by decide, by decide⟩,
    c6_directional_sort_stable demoProducts "price-asc" (by decide) (by decide)⟩

/-- A record whose `slots` field is the number `0` — falsy in JS, so the
filter's `String(p.slots || "")` turns it into the empty string instead of
`"0"`. -/
def slotsZeroProduct : Product :=
  { id := .vnum 9, name := .vstr "Zero Rack", price := .vnum 50, old_price := .vundefined,
    slots := .vnum 0, finish := .vstr "Matte", description := .vstr "",
    image := .vundefined, images := none, specifications := none, amazon := .vundefined }

/-- C1 counterexample: for the record with `slots = 0` and the query `"0"`,
the lowercased trimmed query is a substring of the lowercased string form of
the `slots` field (`"0"`), so the claim says the record is kept — but the
filter drops it, because the code coerces the falsy field with
`String(p.slots || "")` to the empty string. -/
theorem c1_counterexample :
    jsIncludes (jsToLower (jsToString slotsZeroProduct.slots)) (jsToLower (jsTrim "0")) = true
  ∧ jsIncludes (jsToLower (jsToString slotsZeroProduct.name)) (jsToLower (jsTrim "0")) = false
  ∧ jsIncludes (jsToLower (jsToString slotsZeroProduct.finish)) (jsToLower (jsTrim "0")) = false
  ∧ filterStage [slotsZeroProduct] "0" = []
  ∧ applyFilters [slotsZeroProduct] "0" "relevance" = []
  ∧ slotsZeroProduct ∉ filterStage [slotsZeroProduct] "0" := by
  decide

/-- C1 (amended): the filter keeps exactly the records for which the
lowercased trimmed query is empty or is a substring of the lowercased
`String(field || "")` form of `name`, `finish` or `slots` — i.e. of the
field's string form when the field is truthy and of the empty string when it
is falsy (`0`, `""`, `null`, absent); an empty or whitespace-only query keeps
every record. -/
theorem c1_filter_amended (products : List Product) (searchValue : String) :
    filterStage products searchValue
      = products.filter (fun p =>
          decide (jsToLower (jsTrim searchValue) = "")
          || jsIncludes (jsToLower (fieldOrEmpty p.name)) (jsToLower (jsTrim searchValue))
          || jsIncludes (jsToLower (fieldOrEmpty p.finish)) (jsToLower (jsTrim searchValue))
          || jsIncludes (jsToLower (fieldOrEmpty p.slots)) (jsToLower (jsTrim searchValue)))
  ∧ (jsTrim searchValue = "" → filterStage products searchValue = products) := by
  constructor
  · unfold filterStage
    refine List.filter_congr ?_
    intro p _
    unfold matchesQuery
    by_cases h : jsToLower (jsTrim searchValue) = "" <;> simp [h]
  · intro h
    unfold filterStage
    rw [h]
    refine List.filter_eq_self.2 ?_
    intro p _
    rfl

theorem c1_filter_amended_witness :
    (filterStage demoProducts "  MATTE "
        = demoProducts.filter (fun p =>
            decide (jsToLower (jsTrim "  MATTE ") = "")
            || jsIncludes (jsToLower (fieldOrEmpty p.name)) (jsToLower (jsTrim "  MATTE "))
            || jsIncludes (jsToLower (fieldOrEmpty p.finish)) (jsToLower (jsTrim "  MATTE "))
            || jsIncludes (jsToLower (fieldOrEmpty p.slots)) (jsToLower (jsTrim "  MATTE ")))
      ∧ (jsTrim "  MATTE " = "" → filterStage demoProducts "  MATTE " = demoProducts))
  ∧ (jsTrim "   " = "" ∧ filterStage demoProducts "   " = demoProducts) :=
  ⟨c1_filter_amended demoProducts "  MATTE ",
   by decide, (c1_filter_amended demoProducts "   ").2 (by decide)⟩

theorem find?_append_first {α : Type} (p : α → Bool) (r : α) (post : List α)
    (hr : p r = true) :
    ∀ pre : List α, (∀ x ∈ pre, p x = false) → (pre ++ r :: post).find? p = some r
  | [], _ => List.find?_cons_of_pos _ hr
  | a :: t, hpre => by
    rw [List.cons_append,
      List.find?_cons_of_neg _ (by simp [hpre a (List.mem_cons_self a t)])]
    exact find?_append_first p r post hr t (fun x hx => hpre x (List.mem_cons_of_mem a hx))

/-- A record with the numeric id `3`, matched by the URL parameter `"3"`. -/
def demoNum3 : Product :=
  { id := .vnum 3, name := .vstr "Delta Case", price := .vnum 10, old_price := .vundefined,
    slots := .vnum 1, finish := .vstr "Oak", description := .vstr "",
    image := .vundefined, images := none, specifications := none, amazon := .vundefined }

/-- C2: the detail lookup returns the first record in list order whose id,
coerced with `String(-)`, equals the requested id string (so numeric ids
match their string form); it returns nothing on the empty list and when no
coerced id matches, and a missing `id` query parameter yields the not-found
outcome (as does a match failure). -/
theorem c2_detail_lookup (records pre post : List Product) (r : Product) (id : String) :
    findProduct [] id = none
  ∧ ((∀ x ∈ records, jsToString x.id ≠ id) → findProduct records id = none)
  ∧ (records = pre ++ r :: post → jsToString r.id = id →
      (∀ x ∈ pre, jsToString x.id ≠ id) → findProduct records id = some r)
  ∧ detailOutcome none records = DetailResult.notFound
  ∧ ((∀ x ∈ records, jsToString x.id ≠ id) →
      detailOutcome (some id) records = DetailResult.notFound) := by
  have hnone : (∀ x ∈ records, jsToString x.id ≠ id) → findProduct records id = none := by
    intro h
    unfold findProduct
    refine List.find?_eq_none.2 ?_
    intro x hx
    simp [h x hx]
  refine ⟨rfl, hnone, ?_, rfl, ?_⟩
  · rintro rfl hr hpre
    unfold findProduct
    exact find?_append_first _ r post (by simp [hr]) pre (fun x hx => by simp [hpre x hx])
  · intro h
    show (if id = "" then DetailResult.notFound
      else match findProduct records id with
        | none => DetailResult.notFound
        | some p => DetailResult.found p) = DetailResult.notFound
    by_cases hid : id = ""
    · rw [if_pos hid]
    · rw [if_neg hid, hnone h]

theorem c2_detail_lookup_witness :
    (jsToString demoNum3.id = "3"
      ∧ (∀ x ∈ [demoB], jsToString x.id ≠ "3")
      ∧ (∀ x ∈ [demoB, demoNum3], jsToString x.id ≠ "7"))
  ∧ findProduct [demoB, demoNum3] "3" = some demoNum3
  ∧ findProduct [demoB, demoNum3] "7" = none
  ∧ findProduct [] "3" = none
  ∧ detailOutcome none [demoB, demoNum3] = DetailResult.notFound
  ∧ detailOutcome (some "7") [demoB, demoNum3] = DetailResult.notFound :=
  ⟨⟨by decide, by decide, by decide⟩,
   (c2_detail_lookup [demoB, demoNum3] [demoB] [] demoNum3 "3").2.2.1 rfl (by decide) (by decide),
   (c2_detail_lookup [demoB, demoNum3] [] [] demoNum3 "7").2.1 (by decide),
   (c2_detail_lookup [] [] [] demoNum3 "3").1,
   (c2_detail_lookup [demoB, demoNum3] [] [] demoNum3 "3").2.2.2.1,
   (c2_detail_lookup [demoB, demoNum3] [] [] demoNum3 "7").2.2.2.2 (by decide)⟩

/-- C9: recomputing the derived view rewrites only `lastRendered`: the
in-memory `products` array is read but never written (`products.filter`
allocates a fresh array, and the in-place `sort` is applied to that copy
only), so the record set keeps the same elements in the same order across
arbitrary search/sort recomputations. -/
theorem c9_products_frame (s : PageState) (searchValue sortValue : String) :
    (applyFiltersPage s).products = s.products
  ∧ (applyFiltersPage (applyFiltersPage s)).products = s.products
  ∧ (applyFiltersPage { s with searchValue := searchValue, sortValue := sortValue }).products
      = s.products
  ∧ (applyFiltersPage s).searchValue = s.searchValue
  ∧ (applyFiltersPage s).sortValue = s.sortValue :=
  ⟨rfl, rfl, rfl, rfl, rfl⟩

/-! ### Fetch-loop lemmas -/

theorem fetchGo_cons_ok (f : FetchSim) (rest : List FetchSim) (st : LoadState)
    (records : List Product) (hok : attemptResult f = Except.ok records) :
    fetchGo (f :: rest) st = { st with
      attemptsMade := st.attemptsMade + 1
      timeouts := st.timeouts ++ [FETCH_TIMEOUT]
      products := records
      msg := ""
      msgHidden := true
      rendered := some records } := by
  simp only [fetchGo, hok]

theorem fetchGo_cons_error_last (f : FetchSim) (st : LoadState) (e : String)
    (he : attemptResult f = Except.error e) :
    fetchGo [f] st = { st with
      attemptsMade := st.attemptsMade + 1
      timeouts := st.timeouts ++ [FETCH_TIMEOUT]
      msg := loadFailMsg
      msgHidden := false
      containerFailed := true } := by
  simp only [fetchGo, he]
  simp

theorem fetchGo_cons_error (f : FetchSim) (rest : List FetchSim) (st : LoadState)
    (e : String) (he : attemptResult f = Except.error e) (hne : rest ≠ []) :
    fetchGo (f :: rest) st
      = fetchGo rest { st with
          attemptsMade := st.attemptsMade + 1
          timeouts := st.timeouts ++ [FETCH_TIMEOUT]
          delays := st.delays ++ [500] } := by
  simp only [fetchGo, he]
  rw [if_neg hne]

theorem fetchGo_all_fail (fs : List FetchSim) (st : LoadState)
    (hfail : ∀ f ∈ fs, ∃ e, attemptResult f = Except.error e) (hne : fs ≠ []) :
    fetchGo fs st
      = { st with
          msg := loadFailMsg
          msgHidden := false
          containerFailed := true
          timeouts := st.timeouts ++ List.replicate fs.length FETCH_TIMEOUT
          delays := st.delays ++ List.replicate (fs.length - 1) 500
          attemptsMade := st.attemptsMade + fs.length } := by
  induction fs generalizing st with
  | nil => exact absurd rfl hne
  | cons f rest ih =>
    obtain ⟨e, he⟩ := hfail f (List.mem_cons_self f rest)
    cases rest with
    | nil =>
      rw [fetchGo_cons_error_last f st e he]
      simp
    | cons g gs =>
      rw [fetchGo_cons_error f (g :: gs) st e he (by simp),
        ih _ (fun x hx => hfail x (List.mem_cons_of_mem f hx)) (by simp)]
      simp [List.replicate_succ, List.append_assoc]
      omega

theorem fetchGo_success_after (fs : List FetchSim) (f : FetchSim) (rest : List FetchSim)
    (records : List Product) (st : LoadState)
    (hfail : ∀ g ∈ fs, ∃ e, attemptResult g = Except.error e)
    (hok : attemptResult f = Except.ok records) :
    fetchGo (fs ++ f :: rest) st
      = { st with
          msg := ""
          msgHidden := true
          products := records
          rendered := some records
          timeouts := st.timeouts ++ List.replicate (fs.length + 1) FETCH_TIMEOUT
          delays := st.delays ++ List.replicate fs.length 500
          attemptsMade := st.attemptsMade + (fs.length + 1) } := by
  induction fs generalizing st with
  | nil =>
    rw [List.nil_append, fetchGo_cons_ok f rest st records hok]
    simp
  | cons g gs ih =>
    obtain ⟨e, he⟩ := hfail g (List.mem_cons_self g gs)
    rw [List.cons_append, fetchGo_cons_error g (gs ++ f :: rest) st e he (by simp),
      ih _ (fun x hx => hfail x (List.mem_cons_of_mem g hx))]
    simp [List.replicate_succ, List.append_assoc]
    omega

/-- C4: with a retry budget of `retries` extra attempts, the loader makes one
attempt after another — each issued with the per-attempt timeout
`FETCH_TIMEOUT` and separated by a fixed 500 ms delay — as long as attempts
fail (timeout, non-ok status, or non-array body); a success on attempt `k`
stores the records, renders them, and clears the loading/error message, while
only the failure of the final attempt (`k = retries`) produces the
user-visible failure state. -/
theorem c4_fetch_retry (sim : Nat → FetchSim) (retries k : Nat) (records : List Product) :
    (k ≤ retries →
      (∀ i, i < k → ∃ e, attemptResult (sim i) = Except.error e) →
      attemptResult (sim k) = Except.ok records →
      fetchProductsWithRetry sim retries
        = { msg := "", msgHidden := true, products := records, rendered := some records,
            containerFailed := false, timeouts := List.replicate (k + 1) FETCH_TIMEOUT,
            delays := List.replicate k 500, attemptsMade := k + 1 })
  ∧ ((∀ i, i ≤ retries → ∃ e, attemptResult (sim i) = Except.error e) →
      fetchProductsWithRetry sim retries
        = { msg := loadFailMsg, msgHidden := false, products := [], rendered := none,
            containerFailed := true, timeouts := List.replicate (retries + 1) FETCH_TIMEOUT,
            delays := List.replicate retries 500, attemptsMade := retries + 1 }) := by
  constructor
  · intro hk hfail hok
    obtain ⟨rest, hlist⟩ : ∃ rest, (List.range (retries + 1)).map sim
        = (List.range k).map sim ++ sim k :: rest := by
      refine ⟨(List.range (retries - k)).map (fun i => sim (k + 1 + i)), ?_⟩
      have hr : retries + 1 = (k + 1) + (retries - k) := by omega
      rw [hr, List.range_add, List.range_succ, List.map_append, List.map_append, List.map_map,
        List.append_assoc, List.map_singleton, List.singleton_append]
      rfl
    have hfail' : ∀ g ∈ (List.range k).map sim, ∃ e, attemptResult g = Except.error e := by
      intro g hg
      rw [List.mem_map] at hg
      obtain ⟨i, hi, rfl⟩ := hg
      exact hfail i (List.mem_range.1 hi)
    rw [fetchProductsWithRetry, hlist,
      fetchGo_success_after _ _ _ records initLoadState hfail' hok]
    simp [initLoadState]
  · intro hfail
    have hfail' : ∀ g ∈ (List.range (retries + 1)).map sim,
        ∃ e, attemptResult g = Except.error e := by
      intro g hg
      rw [List.mem_map] at hg
      obtain ⟨i, hi, rfl⟩ := hg
      exact hfail i (Nat.lt_succ_iff.1 (List.mem_range.1 hi))
    rw [fetchProductsWithRetry, fetchGo_all_fail _ _ hfail' (by simp)]
    simp [initLoadState]

/-- First attempt times out, second succeeds (used by the C4 witness). -/
def demoSim : Nat → FetchSim :=
  fun i => if i = 0 then FetchSim.timeout else FetchSim.response true 200 (Body.arr demoProducts)

/-- Every attempt returns a non-ok status (used by the C4 witness). -/
def demoFailSim : Nat → FetchSim :=
  fun _ => FetchSim.response false 500 Body.nonArray

theorem c4_fetch_retry_witness :
    ((1 : Nat) ≤ 1
      ∧ (∀ i, i < 1 → ∃ e, attemptResult (demoSim i) = Except.error e)
      ∧ attemptResult (demoSim 1) = Except.ok demoProducts
      ∧ (∀ i, i ≤ 1 → ∃ e, attemptResult (demoFailSim i) = Except.error e))
  ∧ fetchProductsWithRetry demoSim 1
      = { msg := "", msgHidden := true, products := demoProducts,
          rendered := some demoProducts, containerFailed := false,
          timeouts := List.replicate (1 + 1) FETCH_TIMEOUT,
          delays := List.replicate 1 500, attemptsMade := 1 + 1 }
  ∧ fetchProductsWithRetry demoFailSim 1
      = { msg := loadFailMsg, msgHidden := false, products := [], rendered := none,
          containerFailed := true, timeouts := List.replicate (1 + 1) FETCH_TIMEOUT,
          delays := List.replicate 1 500, attemptsMade := 1 + 1 } :=
  ⟨⟨by decide,
    fun i hi => ⟨"Request timed out", by rw [show i = 0 by omega]; rfl⟩,
    rfl,
    fun i _ => ⟨"Network response was not ok: 500", rfl⟩⟩,
   (c4_fetch_retry demoSim 1 1 demoProducts).1 (by decide)
     (fun i hi => ⟨"Request timed out", by rw [show i = 0 by omega]; rfl⟩) rfl,
   (c4_fetch_retry demoFailSim 1 1 demoProducts).2
     (fun i _ => ⟨"Network response was not ok: 500", rfl⟩)⟩

/-! ### Discount helper -/

theorem discountPercent_num {p : Product} {o c : Int} (ho : p.old_price = .vnum o)
    (hc : p.price = .vnum c) (h0 : o ≠ 0) :
    discountPercent p.old_price p.price = some (jsRound ((((o : ℚ) - c) / o) * 100)) := by
  have hoz : ((o : ℚ)) ≠ 0 := Int.cast_ne_zero.mpr h0
  simp [discountPercent, ho, hc, jsToNumber, jsSub, jsDiv, jsMul, hoz]

/-- C7: a record whose `old_price` is a (truthy) number greater than its
numeric `price` gets, in both renderers, a discount figure of exactly
`Math.round(((old_price - price) / old_price) * 100)`: the card renderer
pushes it as the discount span and the detail renderer interpolates the same
value into the discount `<span>` of the price block. -/
theorem c7_discount_percent (p : Product) (fmt : JVal → String) (o c : Int)
    (ho : p.old_price = .vnum o) (hc : p.price = .vnum c) (h0 : o ≠ 0) (_hgt : c < o) :
    discountPercent p.old_price p.price = some (jsRound ((((o : ℚ) - c) / o) * 100))
  ∧ discountText p.old_price p.price = toString (jsRound ((((o : ℚ) - c) / o) * 100))
  ∧ cardPriceContent fmt p
      = [PriceSpan.oldPrice (fmt p.old_price), PriceSpan.currentPrice (fmt p.price),
         PriceSpan.discount (toString (jsRound ((((o : ℚ) - c) / o) * 100)) ++ "% off")]
  ∧ detailDiscountHtml p
      = "<span class=\"discount\">" ++ toString (jsRound ((((o : ℚ) - c) / o) * 100))
          ++ "% off</span>" := by
  have hdp := discountPercent_num ho hc h0
  have htr : jsTruthy p.old_price = true := by
    rw [ho]
    simp [jsTruthy, h0]
  have hdt : discountText p.old_price p.price
      = toString (jsRound ((((o : ℚ) - c) / o) * 100)) := by
    simp [discountText, hdp]
  refine ⟨hdp, hdt, ?_, ?_⟩
  · simp [cardPriceContent, htr, hdt]
  · simp [detailDiscountHtml, htr, hdt]

/-- The spec's worked example: `price = 800`, `old_price = 1000`. -/
def discounted800Product : Product :=
  { id := .vnum 4, name := .vstr "Echo Rack", price := .vnum 800, old_price := .vnum 1000,
    slots := .vnum 8, finish := .vstr "Steel", description := .vstr "",
    image := .vundefined, images := none, specifications := none, amazon := .vundefined }

theorem c7_discount_percent_witness :
    (discounted800Product.old_price = JVal.vnum 1000
      ∧ discounted800Product.price = JVal.vnum 800
      ∧ (1000 : Int) ≠ 0 ∧ (800 : Int) < 1000)
  ∧ discountPercent discounted800Product.old_price discounted800Product.price
      = some (jsRound (((((1000 : Int) : ℚ) - ((800 : Int) : ℚ)) / ((1000 : Int) : ℚ)) * 100))
  ∧ jsRound (((((1000 : Int) : ℚ) - ((800 : Int) : ℚ)) / ((1000 : Int) : ℚ)) * 100) = 20
  ∧ discountText discounted800Product.old_price discounted800Product.price = "20" := by
  have h := c7_discount_percent discounted800Product jsToString 1000 800 rfl rfl
    (by decide) (by decide)
  have h20 : jsRound (((((1000 : Int) : ℚ) - ((800 : Int) : ℚ)) / ((1000 : Int) : ℚ)) * 100)
      = 20 := by
    norm_num [jsRound]
  refine ⟨⟨rfl, rfl, by decide, by decide⟩, h.1, h20, ?_⟩
  rw [h.2.1, h20]
  decide

/-- C10: in both renderers the strikethrough old price and the discount
element are emitted precisely when `old_price` is truthy (a nonzero number
or nonempty string) — even when `old_price ≤ price`, yielding a zero or
negative percentage — while a record whose `old_price` is `0` or absent gets
neither element; when the prices are numbers with `old_price = o ≠ 0` the
discount text is `round(((o - price) / o) * 100)`. -/
theorem c10_old_price_gating (p : Product) (fmt : JVal → String) :
    (jsTruthy p.old_price = true →
        cardPriceContent fmt p
          = [PriceSpan.oldPrice (fmt p.old_price), PriceSpan.currentPrice (fmt p.price),
             PriceSpan.discount (discountText p.old_price p.price ++ "% off")]
      ∧ detailOldPriceHtml fmt p
          = "<span class=\"old-price\"><s>" ++ fmt p.old_price ++ "</s></span>"
      ∧ detailDiscountHtml p
          = "<span class=\"discount\">" ++ discountText p.old_price p.price ++ "% off</span>")
  ∧ (jsTruthy p.old_price = false →
        cardPriceContent fmt p = [PriceSpan.currentPrice (fmt p.price)]
      ∧ detailOldPriceHtml fmt p = ""
      ∧ detailDiscountHtml p = "")
  ∧ (∀ o c : Int, p.old_price = .vnum o → p.price = .vnum c → o ≠ 0 →
      discountText p.old_price p.price
        = toString (jsRound ((((o : ℚ) - c) / o) * 100))) := by
  refine ⟨?_, ?_, ?_⟩
  · intro h
    exact ⟨by simp [cardPriceContent, h], by simp [detailOldPriceHtml, h],
      by simp [detailDiscountHtml, h]⟩
  · intro h
    exact ⟨by simp [cardPriceContent, h], by simp [detailOldPriceHtml, h],
      by simp [detailDiscountHtml, h]⟩
  · intro o c ho hc h0
    simp [discountText, discountPercent_num ho hc h0]

/-- A record discounted in reverse: `old_price = 500 < price = 800` is
truthy, so both elements still render, with a negative percentage. -/
def negDiscountProduct : Product :=
  { id := .vnum 5, name := .vstr "Foxtrot Rack", price := .vnum 800, old_price := .vnum 500,
    slots := .vnum 3, finish := .vstr "Pine", description := .vstr "",
    image := .vundefined, images := none, specifications := none, amazon := .vundefined }

/-- A record whose `old_price` is the falsy number `0`: neither element. -/
def zeroOldPriceProduct : Product :=
  { id := .vnum 6, name := .vstr "Golf Rack", price := .vnum 800, old_price := .vnum 0,
    slots := .vnum 3, finish := .vstr "Pine", description := .vstr "",
    image := .vundefined, images := none, specifications := none, amazon := .vundefined }

theorem c10_old_price_gating_witness :
    (jsTruthy negDiscountProduct.old_price = true
      ∧ jsTruthy zeroOldPriceProduct.old_price = false)
  ∧ (cardPriceContent jsToString negDiscountProduct
      = [PriceSpan.oldPrice (jsToString negDiscountProduct.old_price),
         PriceSpan.currentPrice (jsToString negDiscountProduct.price),
         PriceSpan.discount
           (discountText negDiscountProduct.old_price negDiscountProduct.price ++ "% off")]
      ∧ detailOldPriceHtml jsToString negDiscountProduct
          = "<span class=\"old-price\"><s>" ++ jsToString negDiscountProduct.old_price
              ++ "</s></span>"
      ∧ detailDiscountHtml negDiscountProduct
          = "<span class=\"discount\">"
              ++ discountText negDiscountProduct.old_price negDiscountProduct.price
              ++ "% off</span>")
  ∧ (cardPriceContent jsToString zeroOldPriceProduct
      = [PriceSpan.currentPrice (jsToString zeroOldPriceProduct.price)]
      ∧ detailOldPriceHtml jsToString zeroOldPriceProduct = ""
      ∧ detailDiscountHtml zeroOldPriceProduct = "")
  ∧ discountText negDiscountProduct.old_price negDiscountProduct.price = "-60" := by
  have h1 := (c10_old_price_gating negDiscountProduct jsToString).1 (by decide)
  have h2 := (c10_old_price_gating zeroOldPriceProduct jsToString).2.1 (by decide)
  have h3 := (c10_old_price_gating negDiscountProduct jsToString).2.2 500 800 rfl rfl
    (by decide)
  have h60 : jsRound (((((500 : Int) : ℚ) - ((800 : Int) : ℚ)) / ((500 : Int) : ℚ)) * 100)
      = -60 := by
    norm_num [jsRound]
  refine ⟨⟨by decide, by decide⟩, h1, h2, ?_⟩
  rw [h3, h60]
  decide

/-- C8: for either theme value, toggling twice returns the persisted entry
(and the attribute) to its starting value; a freshly loaded page with no
stored preference initialises to `light`, one toggle then moves it to
`dark`; and every toggle writes the newly computed theme to storage. -/
theorem c8_theme_toggle (s : ThemeState) (t : String)
    (ht : t = "light" ∨ t = "dark") (hd : s.dataTheme = some t) (hst : s.stored = some t) :
    (toggleTheme (toggleTheme s)).stored = some t
  ∧ (toggleTheme (toggleTheme s)).dataTheme = some t
  ∧ (initTheme freshThemeState).dataTheme = some "light"
  ∧ (initTheme freshThemeState).stored = some "light"
  ∧ (toggleTheme (initTheme freshThemeState)).dataTheme = some "dark"
  ∧ (toggleTheme (initTheme freshThemeState)).stored = some "dark"
  ∧ (toggleTheme s).stored
      = some (if s.dataTheme.getD "light" = "dark" then "light" else "dark") := by
  rcases ht with rfl | rfl <;>
    exact ⟨by simp [toggleTheme, setTheme, hd], by simp [toggleTheme, setTheme, hd],
      rfl, rfl, rfl, rfl, rfl⟩

/-- A page in the light theme with the preference persisted. -/
def lightThemeState : ThemeState :=
  { dataTheme := some "light", stored := some "light", toggleText := "🌙" }

theorem c8_theme_toggle_witness :
    (("light" = "light" ∨ ("light" : String) = "dark")
      ∧ lightThemeState.dataTheme = some "light" ∧ lightThemeState.stored = some "light")
  ∧ ((toggleTheme (toggleTheme lightThemeState)).stored = some "light"
      ∧ (toggleTheme (toggleTheme lightThemeState)).dataTheme = some "light"
      ∧ (initTheme freshThemeState).dataTheme = some "light"
      ∧ (initTheme freshThemeState).stored = some "light"
      ∧ (toggleTheme (initTheme freshThemeState)).dataTheme = some "dark"
      ∧ (toggleTheme (initTheme freshThemeState)).stored = some "dark"
      ∧ (toggleTheme lightThemeState).stored
          = some (if lightThemeState.dataTheme.getD "light" = "dark" then "light"
                  else "dark")) :=
  ⟨⟨Or.inl rfl, rfl, rfl⟩,
   c8_theme_toggle lightThemeState "light" (Or.inl rfl) rfl rfl⟩

/-- A record whose `image` URL field carries an attribute-breaking quote. -/
def evilProduct : Product :=
  { id := .vnum 11, name := .vstr "Quiet Rack", price := .vnum 100, old_price := .vundefined,
    slots := .vnum 2, finish := .vstr "matte", description := .vstr "plain",
    image := .vstr "x\" onerror=\"alert(1)", images := none,
    specifications := none, amazon := .vundefined }

/-- A record whose `description` field carries markup. -/
def scriptDescProduct : Product :=
  { id := .vnum 12, name := .vstr "Loud Rack", price := .vnum 100, old_price := .vundefined,
    slots := .vnum 2, finish := .vstr "matte",
    description := .vstr "<script>alert(1)<\x2fscript>",
    image := .vundefined, images := none, specifications := none, amazon := .vundefined }

set_option maxRecDepth 100000 in
/-- C3 (refuted on the code): the detail renderer interpolates the `image`
(and `images`) URL values into `src="..."` attributes raw — the markup it
generates for a record whose `image` contains a quote carries the injected
`onerror` attribute verbatim, and the escaped form of the field does not
occur in the output at all; moreover the card renderer's `specs` block
(js/main.js line 145) interpolates `slots`, `finish` and `description` into
`innerHTML` with no escaping whatsoever. -/
theorem c3_unescaped_injection :
    jsIncludes (renderProductHtml jsToString "" "" evilProduct)
        "src=\"x\" onerror=\"alert(1)\"" = true
  ∧ jsIncludes (renderProductHtml jsToString "" "" evilProduct)
        (escapeHtml evilProduct.image) = false
  ∧ escapeHtml evilProduct.image ≠ jsToString evilProduct.image
  ∧ jsIncludes (createCardSpecsHtml scriptDescProduct)
        "<script>alert(1)<\x2fscript>" = true
  ∧ escapeHtml scriptDescProduct.description ≠ jsToString scriptDescProduct.description := by
  refine ⟨by decide, by decide, by decide, by decide, by decide⟩
